import Mathlib

/-!
Shallow embedding of the scene-composition core of the repository
(`composer.py`, `narrator.py`).  Media clips are modelled as durations in
seconds (rationals) together with an amplitude signal for audio; the moviepy
operations the code relies on (`AudioClip`, `concatenate_audioclips`,
`subclip`, `set_duration`, `set_audio`, `CompositeVideoClip`,
`concatenate_videoclips`) are embedded with their library semantics.
File loading is modelled by `Option` (`none` = missing/undecodable file);
Python exceptions are modelled by `Except`.
-/

namespace Composer

/-- Audio clip: a duration in seconds and an amplitude signal, the model of a
moviepy `AudioClip` / `AudioFileClip`. -/
structure AClip where
  duration : ℚ
  sample : ℚ → ℚ

/-- Model of `AudioClip(lambda t: 0, duration=d)`: a zero-amplitude clip. -/
def silentClip (d : ℚ) : AClip :=
  { duration := d, sample := fun _ => 0 }

/-- Model of moviepy `Clip.set_duration`: only the duration attribute changes. -/
def AClip.set_duration (a : AClip) (d : ℚ) : AClip :=
  { a with duration := d }

/-- Model of moviepy `Clip.subclip(t_start, t_end)`: a negative bound counts
from the end of the clip; the signal is time-shifted by the start bound. -/
def AClip.subclip (a : AClip) (tStart tEnd : ℚ) : AClip :=
  let s := if tStart < 0 then a.duration + tStart else tStart
  let e := if tEnd < 0 then a.duration + tEnd else tEnd
  { duration := e - s, sample := fun t => a.sample (s + t) }

/-- Model of a `CompositeAudioClip` of two clips placed back to back (the
second starting where the first ends): each clip contributes on the half-open
interval where it is playing, outside of which it contributes zero. -/
def concat2 (a b : AClip) : AClip :=
  { duration := a.duration + b.duration,
    sample := fun t =>
      (if 0 ≤ t ∧ t < a.duration then a.sample t else 0) +
      (if a.duration ≤ t ∧ t < a.duration + b.duration then b.sample (t - a.duration) else 0) }

/-- Model of moviepy `concatenate_audioclips`: clips at cumulative start
times, total duration the sum of the durations. -/
def concatenate_audioclips : List AClip → AClip
  | [] => silentClip 0
  | a :: rest => concat2 a (concatenate_audioclips rest)

/-- Model of `pad_audio_to_duration` (composer.py lines 131-142): pad with a
silent clip when too short, `subclip` when too long, pass through when equal,
and in every case force the duration attribute with `set_duration`. -/
def pad_audio_to_duration (audio : AClip) (duration : ℚ) : AClip :=
  let new_audio :=
    if audio.duration < duration then
      concatenate_audioclips [audio, silentClip (duration - audio.duration)]
    else if duration < audio.duration then
      audio.subclip 0 duration
    else
      audio
  new_audio.set_duration duration

/-- Text clip: the model of a moviepy `TextClip` — the rendered caption text
and a duration. -/
structure TClip where
  text : String
  duration : ℚ

/-- Model of `TextClip.set_duration`. -/
def TClip.set_duration (t : TClip) (d : ℚ) : TClip :=
  { t with duration := d }

/-- Video clip: duration, optional attached audio track, and the list of
caption overlays composited on top of the base visual content. -/
structure VClip where
  duration : ℚ
  audio : Option AClip
  overlays : List TClip

/-- Model of moviepy `Clip.set_audio`. -/
def VClip.set_audio (v : VClip) (a : AClip) : VClip :=
  { v with audio := some a }

/-- Model of `CompositeVideoClip([video, txt])`: duration is the maximum of
the component end times (both start at 0), the audio track is the video's
(a `TextClip` carries none), and the caption is layered on top. -/
def CompositeVideoClip (v : VClip) (t : TClip) : VClip :=
  { duration := max v.duration t.duration,
    audio := v.audio,
    overlays := v.overlays ++ [t] }

/-- Scene metadata record as produced by `scriptwriter.py`:
`{'scene': i, 'text': ..., 'source_page': ...}`; `source_page` is `none` when
the key is absent. -/
structure Scene where
  scene : Nat
  text : String
  source_page : Option Int

/-- Exceptions of the composition code.  `assertionError`, `osError` and
`valueError` model the Python exceptions the code in src/ can actually raise
(failed `assert`, failed file open/decode in `VideoFileClip`/`AudioFileClip`,
moviepy concatenation of an empty clip list).  The remaining constructors are
modelled from the spec: the spec's §7 error taxonomy names
`SceneCountMismatchError`, `InvalidDurationError` and
`ConcatenationDriftError`, but no such classes are defined anywhere in src/
and the code never raises them; they are included so that statements about
them can be expressed. -/
inductive CompositionError where
  | assertionError (msg : String)
  | osError
  | valueError
  | sceneCountMismatchError
  | invalidDurationError
  | concatenationDriftError
deriving DecidableEq

/-- Model of Python `str.strip()`: drop leading and trailing whitespace. -/
def py_strip (s : String) : String :=
  ⟨((s.data.dropWhile Char.isWhitespace).reverse.dropWhile
      Char.isWhitespace).reverse⟩

/-- Model of `TextClip(text, ...)` rendering inside the `try` block of
`safe_text_clip`: the renderer is a parameter; `none` models the rendering
raising an exception (caught by the `except` clause). -/
def safe_text_clip (tryRender : String → Option TClip)
    (text : Option String) (duration : ℚ) : Option TClip :=
  let t := py_strip (text.getD "")
  if t = "" then
    none
  else
    match tryRender t with
    | some txt => some (txt.set_duration duration)
    | none => none

/-- Model of `VideoFileClip(path)`: loading a missing or undecodable file
raises (OSError/IOError). -/
def VideoFileClip : Option VClip → Except CompositionError VClip
  | some v => .ok v
  | none => .error .osError

/-- Model of `AudioFileClip(path)`. -/
def AudioFileClip : Option AClip → Except CompositionError AClip
  | some a => .ok a
  | none => .error .osError

/-- Footer text of a scene (composer.py lines 165-166): Python truthiness of
`src_page` makes both a missing key and page `0` yield the empty string. -/
def footer_text (sc : Scene) : String :=
  match sc.source_page with
  | some p => if p = 0 then "" else "Source page: " ++ toString p
  | none => ""

/-- Pure part of the per-scene loop body of `compose_final` (lines 157-171),
after both assets have been loaded: align the audio to the visual's duration,
attach it, and composite the footer caption when `safe_text_clip` returns
one. -/
def mux_scene (tryRender : String → Option TClip)
    (clip : VClip) (audio : AClip) (sc : Scene) : VClip :=
  let audio2 := pad_audio_to_duration audio clip.duration
  let video := clip.set_audio audio2
  match safe_text_clip tryRender (some (footer_text sc)) video.duration with
  | some txt => CompositeVideoClip video txt
  | none => video

/-- One iteration of the per-scene loop: load the visual and the audio (either
may raise and abort the whole run), then mux. -/
def compose_scene (tryRender : String → Option TClip)
    (oc : Option VClip) (oa : Option AClip) (sc : Scene) :
    Except CompositionError VClip :=
  match VideoFileClip oc with
  | .error e => .error e
  | .ok video =>
    match AudioFileClip oa with
    | .error e => .error e
    | .ok audio => .ok (mux_scene tryRender video audio sc)

/-- Body of the audio-reconstruction loop of `compose_final` (lines 181-185):
reload both assets and re-align the audio to the visual's duration. -/
def pad_asset (oc : Option VClip) (oa : Option AClip) :
    Except CompositionError AClip :=
  match VideoFileClip oc with
  | .error e => .error e
  | .ok video =>
    match AudioFileClip oa with
    | .error e => .error e
    | .ok audio => .ok (pad_audio_to_duration audio video.duration)

/-- Python `zip` over three lists: truncates to the shortest. -/
def zip3 {α β γ : Type} : List α → List β → List γ → List (α × β × γ)
  | a :: as₁, b :: bs, c :: cs => (a, b, c) :: zip3 as₁ bs cs
  | _, _, _ => []

/-- A `for` loop that collects one result per element and aborts at the first
raised exception. -/
def mapExcept {α β : Type} (f : α → Except CompositionError β) :
    List α → Except CompositionError (List β)
  | [] => .ok []
  | x :: xs =>
    match f x with
    | .error e => .error e
    | .ok y =>
      match mapExcept f xs with
      | .error e => .error e
      | .ok ys => .ok (y :: ys)

/-- Model of `concatenate_videoclips(clips, method="compose")`: the result's
duration is set to the final cumulative start time `tt[-1]`, the sum of the
component durations; concatenating an empty list raises (moviepy computes the
maximum over an empty sequence).  The implicit audio track moviepy builds here
is replaced unconditionally by `compose_final` (lines 188-194), so it is not
modelled. -/
def concatenate_videoclips : List VClip → Except CompositionError VClip
  | [] => .error .valueError
  | cs => .ok { duration := (cs.map VClip.duration).sum, audio := none, overlays := [] }

/-- Model of `compose_final` (composer.py lines 145-203): assert the three
collections have equal length, compose every scene, concatenate, then rebuild
the audio track by re-aligning every scene's audio, concatenating, padding to
the final duration, and attaching it. -/
def compose_final (tryRender : String → Option TClip)
    (clips : List (Option VClip)) (audios : List (Option AClip))
    (scenes : List Scene) : Except CompositionError VClip :=
  if clips.length = audios.length ∧ audios.length = scenes.length then
    match mapExcept (fun x => compose_scene tryRender x.1 x.2.1 x.2.2)
        (zip3 clips audios scenes) with
    | .error e => .error e
    | .ok composed =>
      match concatenate_videoclips composed with
      | .error e => .error e
      | .ok final =>
        match mapExcept (fun x => pad_asset x.1 x.2.1)
            (zip3 clips audios scenes) with
        | .error e => .error e
        | .ok padded_audios =>
          let final_audio := concatenate_audioclips padded_audios
          let final_audio2 := pad_audio_to_duration final_audio final.duration
          .ok (final.set_audio final_audio2)
  else
    .error (.assertionError "clips/audios/scenes length mismatch")

/-- Modelled from the spec: §4.1 `DurationAligner.align` failure clause —
"if `target_duration <= 0`, fails with `InvalidDurationError`".  No such
validation and no `InvalidDurationError` class exist anywhere in src/; this
definition follows the spec's words so the code's `pad_audio_to_duration`
can be compared against it. -/
def align_spec (audio : AClip) (target_duration : ℚ) :
    Except CompositionError AClip :=
  if target_duration ≤ 0 then .error .invalidDurationError
  else .ok (pad_audio_to_duration audio target_duration)

end Composer

namespace Narrator

open Composer

/-- Model of `is_speakable` (narrator.py lines 23-25): the regex search
`[A-Za-z]` succeeds iff some character is an ASCII letter. -/
def is_speakable (text : String) : Bool :=
  text.data.any fun c => ('A' ≤ c && c ≤ 'Z') || ('a' ≤ c && c ≤ 'z')

/-- Python `x or default` over an optional number: `None` and `0` are falsy. -/
def or_default (x : Option ℚ) (d : ℚ) : ℚ :=
  match x with
  | some v => if v = 0 then d else v
  | none => d

/-- Model of `tts_gtts` (narrator.py lines 46-75), returning the audio
written to `out_path`.  The external gTTS engine is a parameter producing
some speech clip for pronounceable text.  Non-speakable (hence also empty)
text yields a silent `AudioClip` of `target_duration_ms or 8000`
milliseconds; otherwise the speech is written, with its duration forced to
`target_duration_ms` when that argument is truthy. -/
def tts_gtts (gtts : String → AClip) (text : Option String)
    (target_duration_ms : Option ℚ) : AClip :=
  let stripped := py_strip (text.getD "")
  if ¬ is_speakable stripped then
    let duration := or_default target_duration_ms 8000
    silentClip (duration / 1000)
  else if stripped = "" then
    let duration := or_default target_duration_ms 8000
    silentClip (duration / 1000)
  else
    match target_duration_ms with
    | some ms => if ms = 0 then gtts stripped
                 else (gtts stripped).set_duration (ms / 1000)
    | none => gtts stripped

end Narrator

namespace Composer

/-- Concrete audio clip used to instantiate theorems. -/
def aSample : AClip := { duration := 5, sample := fun t => t + 1 }

/-- Second concrete audio clip (native duration 3.2 s, as in the spec's
Scenario A). -/
def aSample2 : AClip := { duration := 16 / 5, sample := fun t => 2 * t }

/-- Concrete visual clip of duration 4 s. -/
def vSample : VClip := { duration := 4, audio := none, overlays := [] }

/-- Concrete visual clip of duration 6 s. -/
def vSample2 : VClip := { duration := 6, audio := none, overlays := [] }

/-- Concrete scene record with a (truthy) source page. -/
def sSample : Scene := { scene := 1, text := "hello", source_page := some 2 }

/-- Concrete scene record without a source page. -/
def sSample2 : Scene := { scene := 2, text := "", source_page := none }

/-- Text renderer that always fails (models `TextClip` raising). -/
def trNone : String → Option TClip := fun _ => none

/-- Text renderer that always succeeds. -/
def trSome : String → Option TClip := fun s => some { text := s, duration := 0 }

end Composer

namespace Composer

lemma pad_audio_to_duration_duration (a : AClip) (d : ℚ) :
    (pad_audio_to_duration a d).duration = d := rfl

lemma pad_audio_to_duration_sample_pad (a : AClip) (d : ℚ) (h : a.duration < d) :
    ∀ t, (pad_audio_to_duration a d).sample t =
      if 0 ≤ t ∧ t < a.duration then a.sample t else 0 := by
  intro t
  simp only [pad_audio_to_duration, AClip.set_duration, if_pos h,
    concatenate_audioclips, concat2, silentClip]
  by_cases h0 : 0 ≤ t ∧ t < a.duration <;> simp [h0]

lemma pad_audio_to_duration_sample_trim (a : AClip) (d : ℚ) (h : d < a.duration) :
    ∀ t, (pad_audio_to_duration a d).sample t = a.sample t := by
  intro t
  have hnlt : ¬ a.duration < d := not_lt_of_gt h
  simp only [pad_audio_to_duration, AClip.set_duration, if_neg hnlt, if_pos h,
    AClip.subclip]
  norm_num

lemma pad_audio_to_duration_eq_self (a : AClip) (d : ℚ) (h : a.duration = d) :
    pad_audio_to_duration a d = a := by
  cases a with
  | mk da sa =>
    simp only at h
    subst h
    simp [pad_audio_to_duration, AClip.set_duration]

lemma safe_text_clip_duration (tr : String → Option TClip)
    (text : Option String) (d : ℚ) (t : TClip)
    (h : safe_text_clip tr text d = some t) : t.duration = d := by
  simp only [safe_text_clip] at h
  by_cases h0 : py_strip (text.getD "") = ""
  · rw [if_pos h0] at h
    exact absurd h (by simp)
  · rw [if_neg h0] at h
    cases hr : tr (py_strip (text.getD "")) with
    | none =>
      rw [hr] at h
      exact absurd h (by simp)
    | some txt =>
      rw [hr] at h
      simp only [Option.some.injEq] at h
      subst h
      rfl

lemma mux_scene_duration (tr : String → Option TClip)
    (clip : VClip) (audio : AClip) (sc : Scene) :
    (mux_scene tr clip audio sc).duration = clip.duration := by
  simp only [mux_scene]
  cases h : safe_text_clip tr (some (footer_text sc))
      (clip.set_audio (pad_audio_to_duration audio clip.duration)).duration with
  | none => rfl
  | some txt =>
    have hd : txt.duration = clip.duration := safe_text_clip_duration _ _ _ _ h
    simp [CompositeVideoClip, VClip.set_audio, hd]

lemma concatenate_audioclips_duration (l : List AClip) :
    (concatenate_audioclips l).duration = (l.map AClip.duration).sum := by
  induction l with
  | nil => rfl
  | cons a rest ih =>
    simp [concatenate_audioclips, concat2, ih]

lemma mapExcept_compose_scene (tr : String → Option TClip) :
    ∀ (cs : List VClip) (auds : List AClip) (ss : List Scene),
      mapExcept (fun x => compose_scene tr x.1 x.2.1 x.2.2)
        (zip3 (cs.map some) (auds.map some) ss)
      = .ok ((zip3 cs auds ss).map fun x => mux_scene tr x.1 x.2.1 x.2.2) := by
  intro cs
  induction cs with
  | nil => intro auds ss; rfl
  | cons c rest ih =>
    intro auds ss
    cases auds with
    | nil => rfl
    | cons a auds2 =>
      cases ss with
      | nil => rfl
      | cons s ss2 =>
        simp only [List.map_cons, zip3, mapExcept]
        rw [show compose_scene tr (some c) (some a) s
            = Except.ok (mux_scene tr c a s) from rfl, ih auds2 ss2]

lemma mapExcept_pad_asset :
    ∀ (cs : List VClip) (auds : List AClip) (ss : List Scene),
      mapExcept (fun x => pad_asset x.1 x.2.1)
        (zip3 (cs.map some) (auds.map some) ss)
      = .ok ((zip3 cs auds ss).map
          fun x => pad_audio_to_duration x.2.1 x.1.duration) := by
  intro cs
  induction cs with
  | nil => intro auds ss; rfl
  | cons c rest ih =>
    intro auds ss
    cases auds with
    | nil => rfl
    | cons a auds2 =>
      cases ss with
      | nil => rfl
      | cons s ss2 =>
        simp only [List.map_cons, zip3, mapExcept]
        rw [show pad_asset (some c) (some a)
            = Except.ok (pad_audio_to_duration a c.duration) from rfl, ih auds2 ss2]

lemma zip3_ne_nil {α β γ : Type} (cs : List α) (bs : List β) (ss : List γ)
    (h1 : cs.length = bs.length) (h2 : bs.length = ss.length)
    (hne : cs ≠ []) : zip3 cs bs ss ≠ [] := by
  cases cs with
  | nil => exact absurd rfl hne
  | cons c cst =>
    cases bs with
    | nil => simp at h1
    | cons b bst =>
      cases ss with
      | nil => simp at h2
      | cons s sst => simp [zip3]

lemma sum_map_mux_duration (tr : String → Option TClip)
    (l : List (VClip × AClip × Scene)) :
    (((l.map fun x => mux_scene tr x.1 x.2.1 x.2.2).map VClip.duration)).sum
      = (l.map fun x => x.1.duration).sum := by
  induction l with
  | nil => rfl
  | cons x xs ih =>
    simp only [List.map_cons, List.sum_cons, mux_scene_duration, ih]

lemma sum_map_pad_duration (l : List (VClip × AClip × Scene)) :
    (((l.map fun x => pad_audio_to_duration x.2.1 x.1.duration).map
        AClip.duration)).sum
      = (l.map fun x => x.1.duration).sum := by
  induction l with
  | nil => rfl
  | cons x xs ih =>
    simp only [List.map_cons, List.sum_cons, pad_audio_to_duration_duration, ih]

lemma sum_map_mux_duration_fused (tr : String → Option TClip)
    (l : List (VClip × AClip × Scene)) :
    (l.map fun x => (mux_scene tr x.1 x.2.1 x.2.2).duration).sum
      = (l.map fun x => x.1.duration).sum := by
  induction l with
  | nil => rfl
  | cons x xs ih =>
    simp only [List.map_cons, List.sum_cons, mux_scene_duration, ih]

lemma concatenate_videoclips_ne_nil (cs : List VClip) (h : cs ≠ []) :
    concatenate_videoclips cs
      = .ok { duration := (cs.map VClip.duration).sum,
              audio := none, overlays := [] } := by
  cases cs with
  | nil => exact absurd rfl h
  | cons c rest => rfl

lemma compose_final_ok (tr : String → Option TClip)
    (clips : List VClip) (audios : List AClip) (scenes : List Scene)
    (h1 : clips.length = audios.length) (h2 : audios.length = scenes.length)
    (hne : clips ≠ []) :
    compose_final tr (clips.map some) (audios.map some) scenes
      = .ok (VClip.set_audio
          { duration := ((zip3 clips audios scenes).map fun x => x.1.duration).sum,
            audio := none, overlays := [] }
          (pad_audio_to_duration
            (concatenate_audioclips
              ((zip3 clips audios scenes).map
                fun x => pad_audio_to_duration x.2.1 x.1.duration))
            (((zip3 clips audios scenes).map fun x => x.1.duration).sum))) := by
  have hguard : (clips.map some).length = (audios.map some).length ∧
      (audios.map some).length = scenes.length := by
    simp only [List.length_map]
    exact ⟨h1, h2⟩
  have hzne : zip3 clips audios scenes ≠ [] :=
    zip3_ne_nil clips audios scenes h1 h2 hne
  have hcne : ((zip3 clips audios scenes).map
      fun x => mux_scene tr x.1 x.2.1 x.2.2) ≠ [] :=
    fun hmap => hzne (List.map_eq_nil_iff.mp hmap)
  simp only [compose_final, if_pos hguard,
    mapExcept_compose_scene tr clips audios scenes,
    concatenate_videoclips_ne_nil _ hcne,
    mapExcept_pad_asset clips audios scenes,
    sum_map_mux_duration]

lemma mapExcept_compose_scene_missing (tr : String → Option TClip) :
    ∀ (clips : List (Option VClip)) (audios : List (Option AClip))
      (scenes : List Scene),
      clips.length = audios.length → audios.length = scenes.length →
      (none ∈ clips ∨ none ∈ audios) →
      mapExcept (fun x => compose_scene tr x.1 x.2.1 x.2.2)
          (zip3 clips audios scenes)
        = .error .osError := by
  intro clips
  induction clips with
  | nil =>
    intro audios scenes h1 h2 hmiss
    rcases hmiss with h | h
    · simp at h
    · cases audios with
      | nil => simp at h
      | cons a rest => simp at h1
  | cons oc rest ih =>
    intro audios scenes h1 h2 hmiss
    cases audios with
    | nil => simp at h1
    | cons oa auds =>
      cases scenes with
      | nil => simp at h2
      | cons s ss =>
        simp only [zip3, mapExcept]
        cases oc with
        | none => rfl
        | some v =>
          cases oa with
          | none => rfl
          | some a =>
            have hmiss2 : none ∈ rest ∨ none ∈ auds := by
              rcases hmiss with h | h
              · rcases List.mem_cons.mp h with h0 | h0
                · exact absurd h0 (by simp)
                · exact Or.inl h0
              · rcases List.mem_cons.mp h with h0 | h0
                · exact absurd h0 (by simp)
                · exact Or.inr h0
            rw [show compose_scene tr (some v) (some a) s
                = Except.ok (mux_scene tr v a s) from rfl,
              ih auds ss (by simpa using h1) (by simpa using h2) hmiss2]

end Composer

open Composer

/-- C1: for every audio asset and target duration, `pad_audio_to_duration`
returns audio whose duration equals the target exactly (hence within any
tolerance); it appends silence when the audio is shorter than the target,
trims the tail (preserving the signal) when it is longer, and passes the
audio through unchanged when they are equal. -/
theorem pad_audio_aligns_duration (a : AClip) (d : ℚ) :
    (pad_audio_to_duration a d).duration = d ∧
    (a.duration = d → pad_audio_to_duration a d = a) ∧
    (a.duration < d → ∀ t, a.duration ≤ t → t < d →
        (pad_audio_to_duration a d).sample t = 0) ∧
    (d < a.duration → ∀ t, (pad_audio_to_duration a d).sample t = a.sample t) := by
  refine ⟨rfl, pad_audio_to_duration_eq_self a d, ?_,
    fun h t => pad_audio_to_duration_sample_trim a d h t⟩
  intro h t hge _
  rw [pad_audio_to_duration_sample_pad a d h t, if_neg]
  exact fun hc => absurd hc.2 (not_lt.mpr hge)

/-- Witness for C1 at a concrete clip of native duration 5 s and target
7 s: the result's duration is 7 and the padded tail is silent. -/
theorem pad_audio_aligns_duration_witness :
    (pad_audio_to_duration aSample 7).duration = 7 ∧
    (pad_audio_to_duration aSample 7).sample 6 = 0 :=
  ⟨(pad_audio_aligns_duration aSample 7).1,
   (pad_audio_aligns_duration aSample 7).2.2.1 (by norm_num [aSample]) 6
     (by norm_num [aSample]) (by norm_num)⟩

/-- C2: padding law — when the native duration is shorter than the target,
the result has exactly the target duration, the original signal is preserved
unchanged on the native prefix, and the padded tail is zero-amplitude
silence; trimming law — when it is longer, the first target-duration seconds
of the signal are preserved unchanged (the rest is discarded). -/
theorem pad_audio_padding_trimming_law (a : AClip) (d : ℚ) :
    (a.duration < d →
        (pad_audio_to_duration a d).duration = d ∧
        (∀ t, 0 ≤ t → t < a.duration →
            (pad_audio_to_duration a d).sample t = a.sample t) ∧
        (∀ t, a.duration ≤ t → t < d →
            (pad_audio_to_duration a d).sample t = 0)) ∧
    (d < a.duration →
        (pad_audio_to_duration a d).duration = d ∧
        (∀ t, 0 ≤ t → t < d →
            (pad_audio_to_duration a d).sample t = a.sample t)) := by
  constructor
  · intro h
    refine ⟨rfl, ?_, ?_⟩
    · intro t h0 hlt
      rw [pad_audio_to_duration_sample_pad a d h t, if_pos ⟨h0, hlt⟩]
    · intro t hge _
      rw [pad_audio_to_duration_sample_pad a d h t, if_neg]
      exact fun hc => absurd hc.2 (not_lt.mpr hge)
  · intro h
    exact ⟨rfl, fun t _ _ => pad_audio_to_duration_sample_trim a d h t⟩

/-- Witness for C2: padding a 3.2 s clip to 4 s preserves the prefix and
silences the tail; trimming a 5 s clip to 2 s preserves the prefix. -/
theorem pad_audio_padding_trimming_law_witness :
    (pad_audio_to_duration aSample2 4).duration = 4 ∧
    (pad_audio_to_duration aSample2 4).sample 1 = aSample2.sample 1 ∧
    (pad_audio_to_duration aSample2 4).sample (7 / 2) = 0 ∧
    (pad_audio_to_duration aSample 2).sample 1 = aSample.sample 1 := by
  have hp := (pad_audio_padding_trimming_law aSample2 4).1 (by norm_num [aSample2])
  have ht := (pad_audio_padding_trimming_law aSample 2).2 (by norm_num [aSample])
  exact ⟨hp.1, hp.2.1 1 (by norm_num) (by norm_num [aSample2]),
    hp.2.2 (7 / 2) (by norm_num [aSample2]) (by norm_num),
    ht.2 1 (by norm_num) (by norm_num)⟩



/-- C3 counterexample (spec Scenario C: 3 scene records but only 2 audio
paths): the composition fails with a plain Python `AssertionError` carrying
the message of composer.py line 146, which is not the spec's
`SceneCountMismatchError` — no such class exists in the code. -/
theorem scene_count_mismatch_counterexample :
    compose_final trSome [some vSample, some vSample, some vSample]
        [some aSample, some aSample] [sSample, sSample, sSample]
      = .error (.assertionError "clips/audios/scenes length mismatch") ∧
    CompositionError.assertionError "clips/audios/scenes length mismatch"
      ≠ CompositionError.sceneCountMismatchError :=
  ⟨rfl, by decide⟩

/-- C3 amended: if the three collections' lengths are not all equal,
`compose_final` fails immediately with the `AssertionError` of its first
statement, for every choice of assets and renderer — so no scene is loaded,
aligned or muxed. -/
theorem compose_final_mismatch_asserts (tr : String → Option TClip)
    (clips : List (Option VClip)) (audios : List (Option AClip))
    (scenes : List Scene)
    (h : ¬ (clips.length = audios.length ∧ audios.length = scenes.length)) :
    compose_final tr clips audios scenes
      = .error (.assertionError "clips/audios/scenes length mismatch") := by
  simp only [compose_final, if_neg h]

/-- Witness for the amended C3 at one clip, zero audios, zero scenes. -/
theorem compose_final_mismatch_asserts_witness :
    compose_final trNone [some vSample2] [] []
      = .error (.assertionError "clips/audios/scenes length mismatch") :=
  compose_final_mismatch_asserts trNone [some vSample2] [] [] (by decide)

/-- C4: muxing never re-stretches the visual — for every loaded visual and
audio asset, `compose_scene` succeeds and the composed scene's duration
equals the visual asset's duration exactly. -/
theorem composed_scene_duration_eq_visual (tr : String → Option TClip)
    (clip : VClip) (audio : AClip) (sc : Scene) :
    ∃ v, compose_scene tr (some clip) (some audio) sc = .ok v ∧
      v.duration = clip.duration :=
  ⟨mux_scene tr clip audio sc, rfl, mux_scene_duration tr clip audio sc⟩

/-- C5: the concatenator re-derives the final audio independently of the
video tracks — the final video returned by `compose_final` carries as its
audio exactly the concatenation of the per-scene audios, each aligned to its
scene's visual duration, padded/trimmed to the concatenated video's exact
duration; that audio's duration equals the final duration and its signal is
pointwise the merged per-scene aligned signal. -/
theorem final_audio_rederived (tr : String → Option TClip)
    (clips : List VClip) (audios : List AClip) (scenes : List Scene)
    (h1 : clips.length = audios.length) (h2 : audios.length = scenes.length)
    (hne : clips ≠ []) :
    ∃ final, compose_final tr (clips.map some) (audios.map some) scenes
        = .ok final ∧
      final.audio = some (pad_audio_to_duration
        (concatenate_audioclips
          ((zip3 clips audios scenes).map
            fun x => pad_audio_to_duration x.2.1 x.1.duration))
        final.duration) ∧
      ∀ fa, final.audio = some fa →
        fa.duration = final.duration ∧
        ∀ t, fa.sample t =
          (concatenate_audioclips
            ((zip3 clips audios scenes).map
              fun x => pad_audio_to_duration x.2.1 x.1.duration)).sample t := by
  refine ⟨_, compose_final_ok tr clips audios scenes h1 h2 hne, rfl, ?_⟩
  intro fa hfa
  have hmd : (concatenate_audioclips ((zip3 clips audios scenes).map
      fun x => pad_audio_to_duration x.2.1 x.1.duration)).duration
      = ((zip3 clips audios scenes).map fun x => x.1.duration).sum := by
    rw [concatenate_audioclips_duration, sum_map_pad_duration]
  have hfa2 : fa = pad_audio_to_duration
      (concatenate_audioclips ((zip3 clips audios scenes).map
        fun x => pad_audio_to_duration x.2.1 x.1.duration))
      (((zip3 clips audios scenes).map fun x => x.1.duration).sum) := by
    have h0 : some (pad_audio_to_duration
        (concatenate_audioclips ((zip3 clips audios scenes).map
          fun x => pad_audio_to_duration x.2.1 x.1.duration))
        (((zip3 clips audios scenes).map fun x => x.1.duration).sum)) = some fa := by
      simpa [VClip.set_audio] using hfa
    exact (Option.some.inj h0).symm
  rw [hfa2, pad_audio_to_duration_eq_self _ _ hmd]
  exact ⟨by simpa [VClip.set_audio] using hmd, fun t => rfl⟩

/-- Witness for C5 at one concrete scene. -/
theorem final_audio_rederived_witness :
    ∃ final, compose_final trNone ([vSample].map some) ([aSample].map some)
        [sSample] = .ok final ∧
      final.audio = some (pad_audio_to_duration
        (concatenate_audioclips
          ((zip3 [vSample] [aSample] [sSample]).map
            fun x => pad_audio_to_duration x.2.1 x.1.duration))
        final.duration) ∧
      ∀ fa, final.audio = some fa →
        fa.duration = final.duration ∧
        ∀ t, fa.sample t =
          (concatenate_audioclips
            ((zip3 [vSample] [aSample] [sSample]).map
              fun x => pad_audio_to_duration x.2.1 x.1.duration)).sample t :=
  final_audio_rederived trNone [vSample] [aSample] [sSample] rfl rfl
    (List.cons_ne_nil _ _)

/-- C6: after concatenation, the timeline's total duration differs from the
sum of the composed scenes' durations by less than any positive tolerance —
in the embedding the difference is exactly zero, so the drift invariant can
never be violated (and in particular no violating timeline is ever produced
or written). -/
theorem concatenation_no_drift (tr : String → Option TClip)
    (clips : List VClip) (audios : List AClip) (scenes : List Scene)
    (h1 : clips.length = audios.length) (h2 : audios.length = scenes.length)
    (hne : clips ≠ []) (tol : ℚ) (htol : 0 < tol) :
    ∃ final, compose_final tr (clips.map some) (audios.map some) scenes
        = .ok final ∧
      |final.duration -
        ((zip3 clips audios scenes).map
          fun x => (mux_scene tr x.1 x.2.1 x.2.2).duration).sum| < tol := by
  refine ⟨_, compose_final_ok tr clips audios scenes h1 h2 hne, ?_⟩
  rw [sum_map_mux_duration_fused]
  simpa [VClip.set_audio] using htol

/-- Witness for C6 with two concrete scenes and tolerance one frame at
25 fps. -/
theorem concatenation_no_drift_witness :
    ∃ final, compose_final trSome ([vSample, vSample2].map some)
        ([aSample2, aSample].map some) [sSample, sSample2] = .ok final ∧
      |final.duration -
        ((zip3 [vSample, vSample2] [aSample2, aSample] [sSample, sSample2]).map
          fun x => (mux_scene trSome x.1 x.2.1 x.2.2).duration).sum| < 1 / 25 :=
  concatenation_no_drift trSome [vSample, vSample2] [aSample2, aSample]
    [sSample, sSample2] rfl rfl (List.cons_ne_nil _ _) (1 / 25) (by norm_num)

/-- C7 counterexample (spec Scenario B: scene 2's visual asset path does not
exist): `compose_final` has no failure policy at all — the composition aborts
with the asset loader's OSError instead of substituting a blank visual with
silent audio and continuing with a warning. -/
theorem degrade_policy_counterexample :
    compose_final trSome [some vSample, none, some vSample]
        [some aSample, some aSample, some aSample] [sSample, sSample, sSample]
      = .error .osError := rfl

/-- C7 amended: there is no configurable degrade policy — whenever any
scene's visual or audio asset is missing or undecodable (with matching
collection lengths), the whole composition fails with the loader's OSError;
no blank-visual/silent-audio substitution occurs and no timeline is
produced. -/
theorem missing_asset_aborts (tr : String → Option TClip)
    (clips : List (Option VClip)) (audios : List (Option AClip))
    (scenes : List Scene)
    (h1 : clips.length = audios.length) (h2 : audios.length = scenes.length)
    (hmiss : none ∈ clips ∨ none ∈ audios) :
    compose_final tr clips audios scenes = .error .osError := by
  simp only [compose_final, if_pos (And.intro h1 h2),
    mapExcept_compose_scene_missing tr clips audios scenes h1 h2 hmiss]

/-- Witness for the amended C7: one scene whose audio file is missing. -/
theorem missing_asset_aborts_witness :
    compose_final trNone [some vSample2] [none] [sSample2]
      = .error .osError :=
  missing_asset_aborts trNone [some vSample2] [none] [sSample2] rfl rfl
    (Or.inr (by simp))

/-- C8: for a scene whose narration text is empty or contains no
pronounceable content, `tts_gtts` writes a fully silent audio asset of
exactly the declared target duration (milliseconds over 1000) — positive,
not zero-duration or missing. -/
theorem empty_narration_silent_audio (gtts : String → AClip)
    (text : Option String) (ms : ℚ) (hms : 0 < ms)
    (hun : Narrator.is_speakable (py_strip (text.getD "")) = false) :
    Narrator.tts_gtts gtts text (some ms) = silentClip (ms / 1000) ∧
    (Narrator.tts_gtts gtts text (some ms)).duration = ms / 1000 ∧
    0 < (Narrator.tts_gtts gtts text (some ms)).duration ∧
    ∀ t, (Narrator.tts_gtts gtts text (some ms)).sample t = 0 := by
  have heq : Narrator.tts_gtts gtts text (some ms) = silentClip (ms / 1000) := by
    simp [Narrator.tts_gtts, Narrator.or_default, hun, ne_of_gt hms]
  refine ⟨heq, ?_, ?_, ?_⟩
  · rw [heq]
    rfl
  · rw [heq]
    exact div_pos hms (by norm_num)
  · intro t
    rw [heq]
    rfl

/-- Witness for C8: narration text with no letters at target 8000 ms yields
8000/1000 seconds of silence. -/
theorem empty_narration_silent_audio_witness :
    Narrator.tts_gtts (fun _ => aSample) (some "123 !!") (some 8000)
      = silentClip (8000 / 1000) ∧
    0 < (Narrator.tts_gtts (fun _ => aSample) (some "123 !!")
          (some 8000)).duration :=
  ⟨(empty_narration_silent_audio (fun _ => aSample) (some "123 !!") 8000
      (by norm_num) (by decide)).1,
   (empty_narration_silent_audio (fun _ => aSample) (some "123 !!") 8000
      (by norm_num) (by decide)).2.2.1⟩

/-- C9 counterexample: at target duration 0 the code's aligner does not fail
— it returns a clip, of duration 0 — whereas the spec-modelled aligner fails
with `InvalidDurationError`. -/
theorem invalid_duration_counterexample :
    (Except.ok (pad_audio_to_duration aSample 0) :
        Except CompositionError AClip)
      ≠ .error .invalidDurationError ∧
    (pad_audio_to_duration aSample 0).duration = 0 ∧
    align_spec aSample 0 = .error .invalidDurationError := by
  refine ⟨by simp, rfl, rfl⟩

/-- C9 amended: `pad_audio_to_duration` performs no validation of the target
duration — for a target ≤ 0 it still returns a clip whose duration equals
that nonpositive target, never raising, unlike the spec-modelled aligner
which fails with `InvalidDurationError`. -/
theorem pad_audio_nonpositive_no_error (a : AClip) (d : ℚ) (hd : d ≤ 0) :
    (pad_audio_to_duration a d).duration = d ∧
    align_spec a d = .error .invalidDurationError :=
  ⟨rfl, by simp [align_spec, if_pos hd]⟩

/-- Witness for the amended C9 at target duration -1. -/
theorem pad_audio_nonpositive_no_error_witness :
    (pad_audio_to_duration aSample2 (-1)).duration = -1 ∧
    align_spec aSample2 (-1) = .error .invalidDurationError :=
  pad_audio_nonpositive_no_error aSample2 (-1) (by norm_num)

/-- C10: the overlay step never propagates a failure — `safe_text_clip`
returns no overlay when the text is `None`, empty or whitespace-only, or
when the renderer raises; and when it returns no overlay the scene is
composed without a caption, as exactly the visual with the aligned audio
attached, content and duration unchanged. -/
theorem overlay_failure_never_propagates (tr : String → Option TClip)
    (text : Option String) (d : ℚ) (clip : VClip) (audio : AClip)
    (sc : Scene) :
    (py_strip (text.getD "") = "" → safe_text_clip tr text d = none) ∧
    (tr (py_strip (text.getD "")) = none → safe_text_clip tr text d = none) ∧
    (safe_text_clip tr (some (footer_text sc)) clip.duration = none →
        compose_scene tr (some clip) (some audio) sc
          = .ok (clip.set_audio (pad_audio_to_duration audio clip.duration))) ∧
    (∀ v, compose_scene tr (some clip) (some audio) sc = .ok v →
        v.duration = clip.duration) := by
  refine ⟨?_, ?_, ?_, ?_⟩
  · intro h
    simp [safe_text_clip, h]
  · intro h
    by_cases h0 : py_strip (text.getD "") = ""
    · simp [safe_text_clip, h0]
    · simp [safe_text_clip, h0, h]
  · intro h
    simp only [compose_scene, VideoFileClip, AudioFileClip, mux_scene,
      VClip.set_audio] at h ⊢
    rw [h]
  · intro v hv
    have hv2 : mux_scene tr clip audio sc = v :=
      Except.ok.inj hv
    rw [← hv2]
    exact mux_scene_duration tr clip audio sc

/-- Witness for C10: whitespace-only caption text and an always-failing
renderer yield no overlay, and a scene without a truthy source page is
composed as the bare visual plus aligned audio. -/
theorem overlay_failure_never_propagates_witness :
    safe_text_clip trNone (some "   ") 4 = none ∧
    compose_scene trNone (some vSample) (some aSample) sSample2
      = .ok (vSample.set_audio (pad_audio_to_duration aSample vSample.duration)) :=
  ⟨(overlay_failure_never_propagates trNone (some "   ") 4 vSample aSample
      sSample2).1 (by decide),
   (overlay_failure_never_propagates trNone (some "   ") 4 vSample aSample
      sSample2).2.2.1 rfl⟩
